import Mathlib

/-!
Verification development for the soultrip travel-planning backend.

The repository's core (trip/location CRUD gated by an ownership chain,
geospatial nearby search, haversine distance) is shallowly embedded here:

* `models.py` rows become Lean structures (`Trip`, `Location`); the relational
  store becomes an explicit `DB` value whose lists model the tables in
  insertion/primary-key order (the order SQLAlchemy's `.all()` returns).
* Each Flask handler in `trip.py` / `locations.py` becomes a pure function
  from a `DB`, the authenticated user's id, and the parsed request body to an
  `HResult` response (and the new `DB` for mutating handlers).  Request-body
  JSON fields that may be absent are `Option _`; values that must additionally
  be parsed (Python `float(...)`/`strptime` which may raise) are
  `Option (Option _)` — `none` models an absent key and `some none` a present
  but unparsable value.  Dates are modelled as integers ordered like dates.
* `haversine_distance` uses exact real arithmetic (`Real.sin`, `Real.cos`,
  `Real.arcsin`, `Real.sqrt`) in place of IEEE floats; the nearby handler is
  parametric in the distance function so that its list-processing logic stays
  executable and can also be instantiated with the real haversine function.
* Python's `round(x, 2)` becomes `roundTo2` via the integer rounding of
  `x * 100` (tie-breaking differs from banker's rounding; no claim depends on
  a tie).
-/

namespace SoulTrip

/-- Row of the `trip` table (`models.py`, class `Trip`).  Dates are modelled
as integers with the calendar order. -/
structure Trip where
  id : Nat
  destination : String
  start_date : Int
  end_date : Int
  user_id : Nat
deriving DecidableEq, Repr

/-- Row of the `location` table (`models.py`, class `Location`). -/
structure Location where
  id : Nat
  name : String
  latitude : ℚ
  longitude : ℚ
  trip_id : Nat
deriving DecidableEq, Repr

/-- The relational store: the `trip` and `location` tables in insertion order,
plus the next auto-increment primary keys. -/
structure DB where
  trips : List Trip
  locations : List Location
  nextTripId : Nat
  nextLocId : Nat
deriving DecidableEq, Repr

/-- Well-formed store: primary keys are unique and below the auto-increment
counters (what a relational database guarantees). -/
def WF (db : DB) : Prop :=
  db.trips.Pairwise (fun a b => a.id ≠ b.id) ∧
  db.locations.Pairwise (fun a b => a.id ≠ b.id) ∧
  (∀ t ∈ db.trips, t.id < db.nextTripId) ∧
  (∀ l ∈ db.locations, l.id < db.nextLocId)

instance (db : DB) : Decidable (WF db) := by
  unfold WF; infer_instance

/-- Outcome of a handler: a success payload with its HTTP code, or an error
with HTTP code and the `{"error": msg}` body. -/
inductive HResult (α : Type) where
  | ok (code : Nat) (body : α)
  | err (code : Nat) (msg : String)
deriving DecidableEq, Repr

/-- `Trip.query.filter_by(id=tid, user_id=uid).first()` — resolve a trip and
verify direct ownership in one lookup. -/
def find_trip (db : DB) (uid tid : Nat) : Option Trip :=
  db.trips.find? (fun t => t.id == tid && t.user_id == uid)

/-- The `trip.locations` relationship: locations whose `trip_id` is `tid`. -/
def trip_locations (db : DB) (tid : Nat) : List Location :=
  db.locations.filter (fun l => l.trip_id == tid)

/-- `Location.query.join(Trip).filter(Trip.user_id == uid)` — all locations
transitively owned by `uid` through the parent trip. -/
def owned_locations (db : DB) (uid : Nat) : List Location :=
  db.locations.filter (fun l => db.trips.any (fun t => t.id == l.trip_id && t.user_id == uid))

/-- `Location.query.join(Trip).filter(Location.id == lid, Trip.user_id == uid).first()`. -/
def find_owned_location (db : DB) (uid lid : Nat) : Option Location :=
  (owned_locations db uid).find? (fun l => l.id == lid)

/-- Location fields as serialised by the handlers. -/
structure LocView where
  id : Nat
  name : String
  latitude : ℚ
  longitude : ℚ
deriving DecidableEq, Repr

/-- Trip fields as serialised by the handlers (`locations` is `[]` for the
responses that do not embed child locations). -/
structure TripView where
  id : Nat
  destination : String
  start_date : Int
  end_date : Int
  locations : List LocView
deriving DecidableEq, Repr

/-- GET `/api/trips/<trip_id>` (`trip.py`, `get_trip`). -/
def get_trip (db : DB) (uid tid : Nat) : HResult TripView :=
  match find_trip db uid tid with
  | none => .err 404 "Trip not found or access denied"
  | some t =>
    .ok 200 ⟨t.id, t.destination, t.start_date, t.end_date,
      (trip_locations db t.id).map (fun l => ⟨l.id, l.name, l.latitude, l.longitude⟩)⟩

/-- Payload of GET `/api/locations/<location_id>`. -/
structure LocDetail where
  id : Nat
  name : String
  latitude : ℚ
  longitude : ℚ
  trip_id : Nat
  trip_destination : String
deriving DecidableEq, Repr

/-- GET `/api/locations/<location_id>` (`locations.py`, `get_location`).  The
parent trip is re-fetched by bare primary key (`Trip.query.get`); a dangling
`trip_id` would crash the handler in Python, modelled as a 500. -/
def get_location (db : DB) (uid lid : Nat) : HResult LocDetail :=
  match find_owned_location db uid lid with
  | none => .err 404 "Location not found or access denied"
  | some l =>
    match db.trips.find? (fun t => t.id == l.trip_id) with
    | none => .err 500 "Internal error"
    | some t => .ok 200 ⟨l.id, l.name, l.latitude, l.longitude, t.id, t.destination⟩

/-- Coordinate bounds checked on every write path
(`-90 <= lat <= 90 and -180 <= lng <= 180`). -/
def validCoords (lat lon : ℚ) : Prop :=
  -90 ≤ lat ∧ lat ≤ 90 ∧ -180 ≤ lon ∧ lon ≤ 180

instance (lat lon : ℚ) : Decidable (validCoords lat lon) := by
  unfold validCoords; infer_instance

/-- Body of POST `/api/trips` (`create_trip`). -/
structure TripCreateBody where
  destination : Option String
  start_date : Option (Option Int)
  end_date : Option (Option Int)
deriving DecidableEq, Repr

/-- POST `/api/trips` (`trip.py`, `create_trip`). -/
def create_trip (db : DB) (uid : Nat) (body : TripCreateBody) : HResult TripView × DB :=
  match body.destination, body.start_date, body.end_date with
  | some dest, some sd?, some ed? =>
    match sd?, ed? with
    | some sd, some ed =>
      if ed < sd then (.err 400 "End date cannot be before start date", db)
      else
        let t : Trip := ⟨db.nextTripId, dest, sd, ed, uid⟩
        (.ok 201 ⟨t.id, dest, sd, ed, []⟩,
         { db with trips := db.trips ++ [t], nextTripId := db.nextTripId + 1 })
    | _, _ => (.err 400 "Invalid date format. Use YYYY-MM-DD", db)
  | _, _, _ => (.err 400 "Missing required trip fields", db)

/-- Body of PUT `/api/trips/<trip_id>` (`update_trip`): partial update. -/
structure TripUpdateBody where
  destination : Option String
  start_date : Option (Option Int)
  end_date : Option (Option Int)
deriving DecidableEq, Repr

/-- Field value after a partial date update: the parsed new value when the key
was provided, the old value otherwise. -/
def newDate (old : Int) : Option (Option Int) → Int
  | some (some v) => v
  | _ => old

/-- PUT `/api/trips/<trip_id>` (`trip.py`, `update_trip`).  The combined state
(provided fields over the stored trip) is validated before the commit; any
failure leaves the persisted state unchanged. -/
def update_trip (db : DB) (uid tid : Nat) (body : TripUpdateBody) : HResult TripView × DB :=
  match find_trip db uid tid with
  | none => (.err 404 "Trip not found or access denied", db)
  | some t =>
    if body.destination.isNone && body.start_date.isNone && body.end_date.isNone then
      (.err 400 "No data provided", db)
    else if body.start_date == some none || body.end_date == some none then
      (.err 400 "Invalid date format. Use YYYY-MM-DD", db)
    else
      let t' : Trip := { t with
        destination := body.destination.getD t.destination,
        start_date := newDate t.start_date body.start_date,
        end_date := newDate t.end_date body.end_date }
      if t'.end_date < t'.start_date then
        (.err 400 "End date cannot be before start date", db)
      else
        (.ok 200 ⟨t'.id, t'.destination, t'.start_date, t'.end_date, []⟩,
         { db with trips := db.trips.map (fun x => if x.id == t.id then t' else x) })

/-- Payload of the message-only success responses. -/
structure MsgBody where
  message : String
deriving DecidableEq, Repr

/-- DELETE `/api/trips/<trip_id>` (`trip.py`, `delete_trip`): the child
locations are deleted by explicit application logic before the trip row. -/
def delete_trip (db : DB) (uid tid : Nat) : HResult MsgBody × DB :=
  match find_trip db uid tid with
  | none => (.err 404 "Trip not found or access denied", db)
  | some t =>
    (.ok 200 ⟨"Trip and all associated locations deleted successfully"⟩,
     { db with
       locations := db.locations.filter (fun l => !(l.trip_id == t.id)),
       trips := db.trips.filter (fun x => !(x.id == t.id)) })

/-- Body of POST `/api/locations/create` (`create_location`). -/
structure LocCreateBody where
  name : Option String
  latitude : Option (Option ℚ)
  longitude : Option (Option ℚ)
  trip_id : Option Nat
deriving DecidableEq, Repr

/-- POST `/api/locations/create` (`locations.py`, `create_location`).
Key presence is checked first, then trip ownership, then coordinate parsing
and range validation. -/
def create_location (db : DB) (uid : Nat) (body : LocCreateBody) : HResult LocView × DB :=
  match body.name, body.latitude, body.longitude, body.trip_id with
  | some nm, some lat?, some lon?, some tid =>
    match find_trip db uid tid with
    | none => (.err 404 "Trip not found or access denied", db)
    | some _ =>
      match lat?, lon? with
      | some lat, some lon =>
        if validCoords lat lon then
          let l : Location := ⟨db.nextLocId, nm, lat, lon, tid⟩
          (.ok 201 ⟨l.id, nm, lat, lon⟩,
           { db with locations := db.locations ++ [l], nextLocId := db.nextLocId + 1 })
        else (.err 400 "Invalid coordinates", db)
      | _, _ => (.err 400 "Invalid coordinate format", db)
  | _, _, _, _ => (.err 400 "Missing required location fields", db)

/-- Body of POST `/api/trips/<trip_id>/locations`, of PUT
`/api/locations/<location_id>`, and of each bulk item. -/
structure LocItemBody where
  name : Option String
  latitude : Option (Option ℚ)
  longitude : Option (Option ℚ)
deriving DecidableEq, Repr

/-- POST `/api/trips/<trip_id>/locations` (`locations.py`,
`add_location_to_trip`).  Ownership is resolved before any body validation. -/
def add_location_to_trip (db : DB) (uid tid : Nat) (body : LocItemBody) :
    HResult LocView × DB :=
  match find_trip db uid tid with
  | none => (.err 404 "Trip not found or access denied", db)
  | some _ =>
    match body.name, body.latitude, body.longitude with
    | some nm, some lat?, some lon? =>
      match lat?, lon? with
      | some lat, some lon =>
        if validCoords lat lon then
          let l : Location := ⟨db.nextLocId, nm, lat, lon, tid⟩
          (.ok 201 ⟨l.id, nm, lat, lon⟩,
           { db with locations := db.locations ++ [l], nextLocId := db.nextLocId + 1 })
        else (.err 400 "Invalid coordinates", db)
      | _, _ => (.err 400 "Invalid coordinate format", db)
    | _, _, _ => (.err 400 "Missing required location fields", db)

/-- Field value after a partial coordinate update. -/
def newCoord (old : ℚ) : Option (Option ℚ) → ℚ
  | some (some v) => v
  | _ => old

/-- Commit step of `update_location`: replace the found row. -/
def commitLoc (db : DB) (l : Location) (nm : String) (lat lon : ℚ) :
    HResult LocView × DB :=
  let l' : Location := { l with name := nm, latitude := lat, longitude := lon }
  (.ok 200 ⟨l.id, nm, lat, lon⟩,
   { db with locations := db.locations.map (fun x => if x.id == l.id then l' else x) })

/-- Longitude step of `update_location` (runs after the latitude step). -/
def updLon (db : DB) (l : Location) (nm : String) (lat : ℚ) :
    Option (Option ℚ) → HResult LocView × DB
  | some none => (.err 400 "Invalid coordinate format", db)
  | some (some lon) =>
    if ¬ (-180 ≤ lon ∧ lon ≤ 180) then (.err 400 "Invalid longitude", db)
    else commitLoc db l nm lat lon
  | none => commitLoc db l nm lat l.longitude

/-- PUT `/api/locations/<location_id>` (`locations.py`, `update_location`).
Fields are validated and applied in source order; the commit happens only
after every provided field passed, so a failure persists nothing. -/
def update_location (db : DB) (uid lid : Nat) (body : LocItemBody) :
    HResult LocView × DB :=
  match find_owned_location db uid lid with
  | none => (.err 404 "Location not found or access denied", db)
  | some l =>
    if body.name.isNone && body.latitude.isNone && body.longitude.isNone then
      (.err 400 "No data provided", db)
    else
      match body.latitude with
      | some none => (.err 400 "Invalid coordinate format", db)
      | some (some lat) =>
        if ¬ (-90 ≤ lat ∧ lat ≤ 90) then (.err 400 "Invalid latitude", db)
        else updLon db l (body.name.getD l.name) lat body.longitude
      | none => updLon db l (body.name.getD l.name) l.latitude body.longitude

/-- DELETE `/api/locations/<location_id>` (`locations.py`, `delete_location`). -/
def delete_location (db : DB) (uid lid : Nat) : HResult MsgBody × DB :=
  match find_owned_location db uid lid with
  | none => (.err 404 "Location not found or access denied", db)
  | some l =>
    (.ok 200 ⟨"Location deleted successfully"⟩,
     { db with locations := db.locations.filter (fun x => !(x.id == l.id)) })

/-- Validation applied to each bulk item: required keys present, coordinates
parse and are in range (`bulk_add_locations` skips the item otherwise). -/
def validItem (it : LocItemBody) : Bool :=
  match it.name, it.latitude, it.longitude with
  | some _, some (some lat), some (some lon) => decide (validCoords lat lon)
  | _, _, _ => false

/-- The bulk loop (`for loc_data in data`): invalid items are skipped, valid
ones become rows with sequentially assigned primary keys. -/
def bulk_insert (tid : Nat) : List LocItemBody → Nat → List Location
  | [], _ => []
  | it :: rest, nid =>
    match it.name, it.latitude, it.longitude with
    | some nm, some (some lat), some (some lon) =>
      if validCoords lat lon then
        ⟨nid, nm, lat, lon, tid⟩ :: bulk_insert tid rest (nid + 1)
      else bulk_insert tid rest nid
    | _, _, _ => bulk_insert tid rest nid

/-- Payload of the bulk success response: the reported count and the rows. -/
structure BulkOk where
  count : Nat
  locations : List LocView
deriving DecidableEq, Repr

/-- POST `/api/trips/<trip_id>/locations/bulk` (`locations.py`,
`bulk_add_locations`).  Ownership is checked once; an empty list fails the
format check; if no item survives validation the call fails with 400 and
nothing is committed; otherwise all surviving rows are committed at once. -/
def bulk_add_locations (db : DB) (uid tid : Nat) (items : List LocItemBody) :
    HResult BulkOk × DB :=
  match find_trip db uid tid with
  | none => (.err 404 "Trip not found or access denied", db)
  | some _ =>
    if items.isEmpty then (.err 400 "Invalid data format. Expected list of locations", db)
    else
      let added := bulk_insert tid items db.nextLocId
      if added.isEmpty then (.err 400 "No valid locations provided", db)
      else
        (.ok 201 ⟨added.length, added.map (fun l => ⟨l.id, l.name, l.latitude, l.longitude⟩)⟩,
         { db with locations := db.locations ++ added,
                   nextLocId := db.nextLocId + added.length })

/-- Python `round(x, 2)`: round to 2 decimal places (tie-breaking aside,
which no claim exercises). -/
def roundTo2 {α : Type} [LinearOrderedField α] [FloorRing α] (x : α) : α :=
  (round (x * 100) : ℤ) / 100

/-- Query string of GET `/api/locations/nearby`: `latitude` and `longitude`
are required, `radius` defaults to 10.0 km; a present but unparsable value is
`some none` (Python `float` raising `ValueError`). -/
structure NearbyArgs where
  latitude : Option (Option ℚ)
  longitude : Option (Option ℚ)
  radius : Option (Option ℚ)
deriving DecidableEq, Repr

/-- One entry of the nearby response: the serialised location plus the
2-decimal-rounded distance.  The distance type is the codomain of the
distance engine. -/
structure NearbyEntry (α : Type) where
  id : Nat
  name : String
  latitude : ℚ
  longitude : ℚ
  distance : α
  trip_id : Nat
deriving DecidableEq, Repr

/-- Payload of the nearby success response. -/
structure NearbyOk (α : Type) where
  center_latitude : ℚ
  center_longitude : ℚ
  radius : ℚ
  locations : List (NearbyEntry α)
  count : Nat
deriving DecidableEq, Repr

/-- The entry built for a qualifying location (lines 273-280 of
`locations.py`). -/
def nearbyEntry {α : Type} [LinearOrderedField α] [FloorRing α]
    (dist : ℚ → ℚ → ℚ → ℚ → α) (lat lon : ℚ) (l : Location) : NearbyEntry α :=
  ⟨l.id, l.name, l.latitude, l.longitude, roundTo2 (dist lat lon l.latitude l.longitude), l.trip_id⟩

/-- GET `/api/locations/nearby` (`locations.py`, `get_nearby_locations`),
parametric in the distance engine `dist` (the source calls
`haversine_distance`; keeping it a parameter keeps the query layer executable
and lets the theorems quantify over it or instantiate it with the exact real
haversine function).  The final `nearby.sort(key=...)` is Python's stable
sort, modelled by `List.mergeSort` on the reported distance. -/
def get_nearby_locations {α : Type} [LinearOrderedField α] [FloorRing α]
    (dist : ℚ → ℚ → ℚ → ℚ → α) (db : DB) (uid : Nat) (args : NearbyArgs) :
    HResult (NearbyOk α) :=
  match args.latitude, args.longitude, args.radius.getD (some 10) with
  | some (some lat), some (some lon), some radius =>
    if ¬ validCoords lat lon ∨ radius ≤ 0 then .err 400 "Invalid coordinates or radius"
    else
      let entries := (owned_locations db uid).filterMap (fun l =>
        if dist lat lon l.latitude l.longitude ≤ (radius : α) then
          some (nearbyEntry dist lat lon l)
        else none)
      let sorted := entries.mergeSort (fun a b => decide (a.distance ≤ b.distance))
      .ok 200 ⟨lat, lon, radius, sorted, sorted.length⟩
  | _, _, _ => .err 400 "Invalid parameters"

/-- The haversine great-circle distance (`locations.py`,
`haversine_distance`), with exact real arithmetic in place of IEEE floats:
degrees are converted to radians (`math.radians x = x * pi / 180`) and the
formula `2 * asin(sqrt(a)) * 6371` is applied verbatim. -/
noncomputable def haversine_distance (lat1 lon1 lat2 lon2 : ℝ) : ℝ :=
  let rlat1 := lat1 * Real.pi / 180
  let rlon1 := lon1 * Real.pi / 180
  let rlat2 := lat2 * Real.pi / 180
  let rlon2 := lon2 * Real.pi / 180
  let dlon := rlon2 - rlon1
  let dlat := rlat2 - rlat1
  let a := Real.sin (dlat / 2) ^ 2 +
    Real.cos rlat1 * Real.cos rlat2 * Real.sin (dlon / 2) ^ 2
  let c := 2 * Real.arcsin (Real.sqrt a)
  c * 6371

/-- The distance engine as used by the nearby handler: rational request and
row coordinates fed to the real haversine function. -/
noncomputable def haversineQ (lat1 lon1 lat2 lon2 : ℚ) : ℝ :=
  haversine_distance lat1 lon1 lat2 lon2

/-! ### Helper lemmas -/

theorem find_trip_eq_none_of (db : DB) (uid tid : Nat)
    (h : ∀ t ∈ db.trips, ¬ (t.id = tid ∧ t.user_id = uid)) :
    find_trip db uid tid = none := by
  apply List.find?_eq_none.mpr
  intro t ht
  simp only [Bool.and_eq_true, beq_iff_eq]
  exact h t ht

theorem find_trip_spec (db : DB) (uid tid : Nat) (t : Trip)
    (h : find_trip db uid tid = some t) :
    t ∈ db.trips ∧ t.id = tid ∧ t.user_id = uid := by
  have hm := List.mem_of_find?_eq_some h
  have hp := List.find?_some h
  simp only [Bool.and_eq_true, beq_iff_eq] at hp
  exact ⟨hm, hp.1, hp.2⟩

theorem owned_locations_spec (db : DB) (uid : Nat) (l : Location)
    (h : l ∈ owned_locations db uid) :
    l ∈ db.locations ∧ ∃ t ∈ db.trips, t.id = l.trip_id ∧ t.user_id = uid := by
  rw [owned_locations, List.mem_filter] at h
  refine ⟨h.1, ?_⟩
  have := h.2
  simp only [List.any_eq_true, Bool.and_eq_true, beq_iff_eq] at this
  obtain ⟨t, ht, h1, h2⟩ := this
  exact ⟨t, ht, h1, h2⟩

/-! ### C2 — NotFound hides foreign entities -/

/-- C2: for every caller `uid`, if no trip with id `tid` is owned by `uid`
(covering both "the trip does not exist" and "it exists but belongs to a
different user"), GET `/api/trips/{id}` returns the one fixed 404 response;
likewise for locations through the transitive ownership join.  As both cases
produce the same constant response, a caller cannot distinguish a foreign
entity from an absent one; in particular user B fetching user A's trip
receives 404. -/
theorem notfound_hides_foreign (db : DB) (uid tid lid : Nat)
    (hT : ∀ t ∈ db.trips, ¬ (t.id = tid ∧ t.user_id = uid))
    (hL : ∀ l ∈ db.locations, l.id = lid →
       ∀ t ∈ db.trips, ¬ (t.id = l.trip_id ∧ t.user_id = uid)) :
    get_trip db uid tid = .err 404 "Trip not found or access denied" ∧
    get_location db uid lid = .err 404 "Location not found or access denied" := by
  constructor
  · rw [get_trip, find_trip_eq_none_of db uid tid hT]
  · have hnone : find_owned_location db uid lid = none := by
      apply List.find?_eq_none.mpr
      intro l hl
      simp only [beq_iff_eq]
      intro hid
      obtain ⟨hmem, t, ht, h1, h2⟩ := owned_locations_spec db uid l hl
      exact hL l hmem hid t ht ⟨h1, h2⟩
    rw [get_location, hnone]

/-- Closed witness for C2: user 2 requesting user 1's trip 5 (and location 9)
receives the 404 responses. -/
theorem notfound_hides_foreign_witness :
    (∀ t ∈ (DB.mk [⟨5, "Kyoto", 0, 9, 1⟩] [⟨9, "A", 35, 135.7, 5⟩] 6 10).trips,
       ¬ (t.id = 5 ∧ t.user_id = 2)) ∧
    get_trip (DB.mk [⟨5, "Kyoto", 0, 9, 1⟩] [⟨9, "A", 35, 135.7, 5⟩] 6 10) 2 5
      = .err 404 "Trip not found or access denied" ∧
    get_location (DB.mk [⟨5, "Kyoto", 0, 9, 1⟩] [⟨9, "A", 35, 135.7, 5⟩] 6 10) 2 9
      = .err 404 "Location not found or access denied" :=
  ⟨by decide, notfound_hides_foreign
    (DB.mk [⟨5, "Kyoto", 0, 9, 1⟩] [⟨9, "A", 35, 135.7, 5⟩] 6 10) 2 5 9
    (by decide) (by decide)⟩

/-! ### C10 — missing fields beat the ownership check on `/api/locations/create` -/

/-- C10: the standalone creation endpoint validates presence of `name`,
`latitude`, `longitude` and `trip_id` before the trip-ownership lookup, so a
body with any of them missing gets the 400 response for every store and every
caller — in particular when `trip_id` references another user's trip, the
caller sees 400, not 404. -/
theorem missing_fields_before_ownership (db : DB) (uid : Nat) (body : LocCreateBody)
    (h : body.name = none ∨ body.latitude = none ∨ body.longitude = none ∨
         body.trip_id = none) :
    create_location db uid body = (.err 400 "Missing required location fields", db) := by
  obtain ⟨n, la, lo, ti⟩ := body
  cases n <;> cases la <;> cases lo <;> cases ti <;> simp_all [create_location]

/-- Closed witness for C10: a body missing `name` but referencing user 1's
trip 5, sent by user 2, receives 400 (not 404). -/
theorem missing_fields_before_ownership_witness :
    ((LocCreateBody.mk none (some (some 200)) (some (some 0)) (some 5)).name = none ∨
     (LocCreateBody.mk none (some (some 200)) (some (some 0)) (some 5)).latitude = none ∨
     (LocCreateBody.mk none (some (some 200)) (some (some 0)) (some 5)).longitude = none ∨
     (LocCreateBody.mk none (some (some 200)) (some (some 0)) (some 5)).trip_id = none) ∧
    create_location (DB.mk [⟨5, "Kyoto", 0, 9, 1⟩] [] 6 1) 2
      (LocCreateBody.mk none (some (some 200)) (some (some 0)) (some 5))
      = (.err 400 "Missing required location fields",
         DB.mk [⟨5, "Kyoto", 0, 9, 1⟩] [] 6 1) :=
  ⟨by decide, missing_fields_before_ownership
    (DB.mk [⟨5, "Kyoto", 0, 9, 1⟩] [] 6 1) 2
    (LocCreateBody.mk none (some (some 200)) (some (some 0)) (some 5))
    (by decide)⟩

/-! ### C5 — ownership precedes coordinate validation -/

/-- C5: creating a location under a trip the caller does not own yields the
404 response and never a validation error: `add_location_to_trip` checks
ownership before reading the body at all, and `create_location` checks it
before parsing or range-checking the coordinates, so the result is the 404
constant for every body — including bodies whose coordinates are invalid. -/
theorem foreign_trip_always_notfound (db : DB) (uid tid : Nat)
    (h : ∀ t ∈ db.trips, ¬ (t.id = tid ∧ t.user_id = uid)) :
    (∀ body : LocItemBody,
       add_location_to_trip db uid tid body
         = (.err 404 "Trip not found or access denied", db)) ∧
    (∀ nm lat? lon?,
       create_location db uid ⟨some nm, some lat?, some lon?, some tid⟩
         = (.err 404 "Trip not found or access denied", db)) := by
  have hnone := find_trip_eq_none_of db uid tid h
  exact ⟨fun body => by rw [add_location_to_trip, hnone],
         fun nm lat? lon? => by simp [create_location, hnone]⟩

/-- Closed witness for C5: user 2 posting an out-of-range location (latitude
200) under user 1's trip 5 receives 404 from both endpoints. -/
theorem foreign_trip_always_notfound_witness :
    (∀ t ∈ (DB.mk [⟨5, "Kyoto", 0, 9, 1⟩] [] 6 1).trips, ¬ (t.id = 5 ∧ t.user_id = 2)) ∧
    add_location_to_trip (DB.mk [⟨5, "Kyoto", 0, 9, 1⟩] [] 6 1) 2 5
        ⟨some "bad", some (some 200), some (some 0)⟩
      = (.err 404 "Trip not found or access denied", DB.mk [⟨5, "Kyoto", 0, 9, 1⟩] [] 6 1) ∧
    create_location (DB.mk [⟨5, "Kyoto", 0, 9, 1⟩] [] 6 1) 2
        ⟨some "bad", some (some 200), some (some 0), some 5⟩
      = (.err 404 "Trip not found or access denied", DB.mk [⟨5, "Kyoto", 0, 9, 1⟩] [] 6 1) := by
  refine ⟨by decide, ?_, ?_⟩
  · exact (foreign_trip_always_notfound (DB.mk [⟨5, "Kyoto", 0, 9, 1⟩] [] 6 1) 2 5
      (by decide)).1 ⟨some "bad", some (some 200), some (some 0)⟩
  · exact (foreign_trip_always_notfound (DB.mk [⟨5, "Kyoto", 0, 9, 1⟩] [] 6 1) 2 5
      (by decide)).2 "bad" (some 200) (some 0)

theorem unique_by_id {β : Type} (f : β → Nat) (L : List β)
    (hp : L.Pairwise (fun a b => f a ≠ f b)) :
    ∀ a ∈ L, ∀ b ∈ L, f a = f b → a = b := by
  intro a ha b hb hf
  by_contra hne
  have hsym : Symmetric (fun a b : β => f a ≠ f b) := by
    intro x y h he
    exact h he.symm
  exact hp.forall hsym ha hb hne hf

/-! ### C3 — deleting a trip cascades over its locations -/

/-- C3: for a trip owned by the caller, `delete_trip` succeeds, removes every
child location together with the trip in the same operation (the child
deletions are the handler's own loop, not a database cascade), and afterwards
fetching the trip or any of its child locations yields the 404 response,
while unrelated trips and locations survive. -/
theorem delete_trip_cascade (db : DB) (uid tid : Nat) (t : Trip)
    (hwf : WF db) (ht : find_trip db uid tid = some t) :
    (delete_trip db uid tid).1
        = .ok 200 ⟨"Trip and all associated locations deleted successfully"⟩ ∧
    get_trip (delete_trip db uid tid).2 uid tid
        = .err 404 "Trip not found or access denied" ∧
    (∀ l ∈ db.locations, l.trip_id = tid →
       get_location (delete_trip db uid tid).2 uid l.id
         = .err 404 "Location not found or access denied") ∧
    (∀ l ∈ db.locations, l.trip_id ≠ tid → l ∈ (delete_trip db uid tid).2.locations) ∧
    (∀ x ∈ db.trips, x.id ≠ tid → x ∈ (delete_trip db uid tid).2.trips) := by
  obtain ⟨htm, htid, huid⟩ := find_trip_spec db uid tid t ht
  have hd : delete_trip db uid tid =
      (.ok 200 ⟨"Trip and all associated locations deleted successfully"⟩,
       { db with
         locations := db.locations.filter (fun l => !(l.trip_id == t.id)),
         trips := db.trips.filter (fun x => !(x.id == t.id)) }) := by
    rw [delete_trip, ht]
  rw [hd]
  refine ⟨rfl, ?_, ?_, ?_, ?_⟩
  · have hnone : find_trip
        { db with
          locations := db.locations.filter (fun l => !(l.trip_id == t.id)),
          trips := db.trips.filter (fun x => !(x.id == t.id)) } uid tid = none := by
      apply find_trip_eq_none_of
      intro x hx
      have hx2 : x.id ≠ t.id := by
        have := (List.mem_filter.mp hx).2
        simpa using this
      exact fun hc => hx2 (htid ▸ hc.1)
    rw [get_trip, hnone]
  · intro l hl hltid
    have hnone : find_owned_location
        { db with
          locations := db.locations.filter (fun x => !(x.trip_id == t.id)),
          trips := db.trips.filter (fun x => !(x.id == t.id)) } uid l.id = none := by
      apply List.find?_eq_none.mpr
      intro x hx
      simp only [beq_iff_eq]
      intro hxid
      obtain ⟨hxmem, -⟩ := owned_locations_spec _ uid x hx
      have hxf := List.mem_filter.mp hxmem
      have hxt : x.trip_id ≠ t.id := by simpa using hxf.2
      have hxl : x = l :=
        unique_by_id Location.id db.locations hwf.2.1 x hxf.1 l hl hxid
      exact hxt (by rw [hxl, hltid, htid])
    rw [get_location, hnone]
  · intro l hl hne
    exact List.mem_filter.mpr ⟨hl, by simpa using fun hc => hne (htid ▸ hc)⟩
  · intro x hx hne
    exact List.mem_filter.mpr ⟨hx, by simpa using fun hc => hne (htid ▸ hc)⟩

/-- Closed witness for C3: deleting trip 1 (two child locations, one foreign
location) succeeds and the children become unfetchable. -/
theorem delete_trip_cascade_witness :
    WF (DB.mk [⟨1, "Kyoto", 0, 9, 1⟩, ⟨2, "Oslo", 0, 5, 2⟩]
        [⟨1, "A", 35, 135.7, 1⟩, ⟨2, "B", 0, 0, 2⟩, ⟨3, "C", 35.1, 135.7, 1⟩] 3 4) ∧
    find_trip (DB.mk [⟨1, "Kyoto", 0, 9, 1⟩, ⟨2, "Oslo", 0, 5, 2⟩]
        [⟨1, "A", 35, 135.7, 1⟩, ⟨2, "B", 0, 0, 2⟩, ⟨3, "C", 35.1, 135.7, 1⟩] 3 4) 1 1
      = some ⟨1, "Kyoto", 0, 9, 1⟩ ∧
    get_trip (delete_trip (DB.mk [⟨1, "Kyoto", 0, 9, 1⟩, ⟨2, "Oslo", 0, 5, 2⟩]
        [⟨1, "A", 35, 135.7, 1⟩, ⟨2, "B", 0, 0, 2⟩, ⟨3, "C", 35.1, 135.7, 1⟩] 3 4) 1 1).2 1 1
      = .err 404 "Trip not found or access denied" :=
  ⟨by decide, by decide,
   (delete_trip_cascade (DB.mk [⟨1, "Kyoto", 0, 9, 1⟩, ⟨2, "Oslo", 0, 5, 2⟩]
      [⟨1, "A", 35, 135.7, 1⟩, ⟨2, "B", 0, 0, 2⟩, ⟨3, "C", 35.1, 135.7, 1⟩] 3 4) 1 1
      ⟨1, "Kyoto", 0, 9, 1⟩ (by decide) (by decide)).2.1⟩

/-! ### C7 — `end_date ≥ start_date` is an invariant of the trip table -/

/-- Every persisted trip satisfies `start_date ≤ end_date`. -/
def TripDatesOK (db : DB) : Prop := ∀ t ∈ db.trips, t.start_date ≤ t.end_date

instance (db : DB) : Decidable (TripDatesOK db) := by
  unfold TripDatesOK; infer_instance

/-- C7: the date invariant is preserved by both trip-writing handlers, and a
request whose combined resulting state would violate it (for an update, the
provided fields merged over the stored trip — also when only one date is
provided) is rejected with the validation error and leaves the store
untouched. -/
theorem trip_dates_invariant (db : DB) (uid tid : Nat)
    (bC : TripCreateBody) (bU : TripUpdateBody) (hinv : TripDatesOK db) :
    TripDatesOK (create_trip db uid bC).2 ∧
    TripDatesOK (update_trip db uid tid bU).2 ∧
    (∀ dest sd ed, bC = ⟨some dest, some (some sd), some (some ed)⟩ → ed < sd →
       create_trip db uid bC = (.err 400 "End date cannot be before start date", db)) ∧
    (∀ t, find_trip db uid tid = some t →
       bU.start_date ≠ some none → bU.end_date ≠ some none →
       newDate t.end_date bU.end_date < newDate t.start_date bU.start_date →
       update_trip db uid tid bU
         = (.err 400 "End date cannot be before start date", db)) := by
  refine ⟨?_, ?_, ?_, ?_⟩
  · obtain ⟨d?, s?, e?⟩ := bC
    rcases d? with - | dest <;> rcases s? with - | s <;> rcases e? with - | e <;>
      try exact hinv
    rcases s with - | sd <;> rcases e with - | ed <;> try exact hinv
    by_cases h : ed < sd
    · simp only [create_trip, if_pos h]; exact hinv
    · simp only [create_trip, if_neg h]
      intro x hx
      rcases List.mem_append.mp hx with h1 | h1
      · exact hinv x h1
      · rw [List.mem_singleton.mp h1]
        exact le_of_not_lt h
  · cases hft : find_trip db uid tid with
    | none => simp only [update_trip, hft]; exact hinv
    | some t =>
      simp only [update_trip, hft]
      split
      · exact hinv
      · split
        · exact hinv
        · split
          · exact hinv
          · rename_i hguard
            intro x hx
            simp only [List.mem_map] at hx
            obtain ⟨y, hy, rfl⟩ := hx
            by_cases hyid : (y.id == t.id) = true
            · rw [if_pos hyid]
              exact le_of_not_lt hguard
            · rw [if_neg hyid]
              exact hinv y hy
  · intro dest sd ed hbc hlt
    subst hbc
    simp only [create_trip, if_pos hlt]
  · intro t hft hs he hlt
    obtain ⟨htm, -, -⟩ := find_trip_spec db uid tid t hft
    simp only [update_trip, hft]
    have hnotall :
        ¬(bU.destination.isNone && bU.start_date.isNone && bU.end_date.isNone) = true := by
      intro hall
      simp only [Bool.and_eq_true, Option.isNone_iff_eq_none] at hall
      rw [hall.1.2, hall.2] at hlt
      exact absurd hlt (not_lt.mpr (hinv t htm))
    rw [if_neg hnotall]
    have hparse : ¬((bU.start_date == some none) || (bU.end_date == some none)) = true := by
      simp only [Bool.or_eq_true, beq_iff_eq]
      rintro (h | h)
      exacts [hs h, he h]
    rw [if_neg hparse, if_pos hlt]

/-- Closed witness for C7: the invariant holds after a valid create and after
an update that provides only `end_date`. -/
theorem trip_dates_invariant_witness :
    TripDatesOK (DB.mk [⟨1, "Kyoto", 3, 9, 1⟩] [] 2 1) ∧
    TripDatesOK (create_trip (DB.mk [⟨1, "Kyoto", 3, 9, 1⟩] [] 2 1) 1
      ⟨some "Oslo", some (some 4), some (some 6)⟩).2 ∧
    TripDatesOK (update_trip (DB.mk [⟨1, "Kyoto", 3, 9, 1⟩] [] 2 1) 1 1
      ⟨none, none, some (some 5)⟩).2 :=
  ⟨by decide,
   (trip_dates_invariant (DB.mk [⟨1, "Kyoto", 3, 9, 1⟩] [] 2 1) 1 1
     ⟨some "Oslo", some (some 4), some (some 6)⟩ ⟨none, none, some (some 5)⟩
     (by decide)).1,
   (trip_dates_invariant (DB.mk [⟨1, "Kyoto", 3, 9, 1⟩] [] 2 1) 1 1
     ⟨some "Oslo", some (some 4), some (some 6)⟩ ⟨none, none, some (some 5)⟩
     (by decide)).2.1⟩

/-! ### C6 — partial updates are atomic -/

theorem find_owned_location_spec (db : DB) (uid lid : Nat) (l : Location)
    (h : find_owned_location db uid lid = some l) :
    l ∈ db.locations ∧ l.id = lid := by
  have hm := List.mem_of_find?_eq_some h
  have hp := List.find?_some h
  simp only [beq_iff_eq] at hp
  exact ⟨(owned_locations_spec db uid l hm).1, hp⟩

theorem map_replace_eq {β : Type} (f : β → Nat) (L : List β)
    (hp : L.Pairwise (fun a b => f a ≠ f b)) (l : β) (hl : l ∈ L) (g : β → β) :
    L.map (fun x => if f x == f l then g l else x)
      = L.map (fun x => if f x = f l then g x else x) := by
  apply List.map_congr_left
  intro x hx
  by_cases h : f x = f l
  · rw [if_pos (beq_iff_eq.mpr h), if_pos h, unique_by_id f L hp x hx l hl h]
  · rw [if_neg (by simpa using h), if_neg h]

/-- Every run of `update_location` either fails leaving the store unchanged,
or succeeds replacing exactly the addressed row with its field-wise update. -/
theorem update_location_result (db : DB) (uid lid : Nat) (b : LocItemBody) :
    (∃ c m, update_location db uid lid b = (.err c m, db)) ∨
    (∃ l, find_owned_location db uid lid = some l ∧
       update_location db uid lid b =
         (.ok 200 ⟨l.id, b.name.getD l.name, newCoord l.latitude b.latitude,
                   newCoord l.longitude b.longitude⟩,
          { db with locations := db.locations.map (fun x => if x.id == l.id then
              { l with name := b.name.getD l.name,
                       latitude := newCoord l.latitude b.latitude,
                       longitude := newCoord l.longitude b.longitude } else x) })) := by
  cases hfl : find_owned_location db uid lid with
  | none => exact .inl ⟨404, "Location not found or access denied", by simp [update_location, hfl]⟩
  | some l =>
    obtain ⟨n?, la?, lo?⟩ := b
    rcases la? with - | la
    · rcases lo? with - | lo
      · rcases n? with - | nm
        · exact .inl ⟨400, "No data provided", by simp [update_location, hfl]⟩
        · exact .inr ⟨l, rfl, by simp [update_location, hfl, updLon, commitLoc, newCoord]⟩
      · rcases lo with - | lov
        · exact .inl ⟨400, "Invalid coordinate format",
            by simp [update_location, hfl, updLon]⟩
        · by_cases hr : -180 ≤ lov ∧ lov ≤ 180
          · refine .inr ⟨l, rfl, ?_⟩
            simp only [update_location, hfl, updLon, commitLoc, newCoord]
            rw [if_neg (not_not_intro hr)]
            simp
          · refine .inl ⟨400, "Invalid longitude", ?_⟩
            simp only [update_location, hfl, updLon]
            rw [if_pos hr]
            simp
    · rcases la with - | lav
      · exact .inl ⟨400, "Invalid coordinate format", by simp [update_location, hfl]⟩
      · by_cases hrla : -90 ≤ lav ∧ lav ≤ 90
        · rcases lo? with - | lo
          · refine .inr ⟨l, rfl, ?_⟩
            simp only [update_location, hfl, updLon, commitLoc, newCoord]
            rw [if_neg (not_not_intro hrla)]
            simp [updLon, commitLoc]
          · rcases lo with - | lov
            · refine .inl ⟨400, "Invalid coordinate format", ?_⟩
              simp only [update_location, hfl]
              rw [if_neg (not_not_intro hrla)]
              simp [updLon]
            · by_cases hrlo : -180 ≤ lov ∧ lov ≤ 180
              · refine .inr ⟨l, rfl, ?_⟩
                simp only [update_location, hfl]
                rw [if_neg (not_not_intro hrla)]
                simp only [updLon, commitLoc, newCoord]
                rw [if_neg (not_not_intro hrlo)]
                simp
              · refine .inl ⟨400, "Invalid longitude", ?_⟩
                simp only [update_location, hfl]
                rw [if_neg (not_not_intro hrla)]
                simp only [updLon]
                rw [if_pos hrlo]
                simp
        · refine .inl ⟨400, "Invalid latitude", ?_⟩
          simp only [update_location, hfl]
          rw [if_pos hrla]
          simp

/-- Every run of `update_trip` either fails leaving the store unchanged, or
succeeds replacing exactly the addressed row with its field-wise update. -/
theorem update_trip_result (db : DB) (uid tid : Nat) (b : TripUpdateBody) :
    (∃ c m, update_trip db uid tid b = (.err c m, db)) ∨
    (∃ t, find_trip db uid tid = some t ∧
       update_trip db uid tid b =
         (.ok 200 ⟨t.id, b.destination.getD t.destination,
                   newDate t.start_date b.start_date, newDate t.end_date b.end_date, []⟩,
          { db with trips := db.trips.map (fun x => if x.id == t.id then
              { t with destination := b.destination.getD t.destination,
                       start_date := newDate t.start_date b.start_date,
                       end_date := newDate t.end_date b.end_date } else x) })) := by
  cases hft : find_trip db uid tid with
  | none => exact .inl ⟨404, "Trip not found or access denied", by simp [update_trip, hft]⟩
  | some t =>
    obtain ⟨d?, s?, e?⟩ := b
    by_cases hall : d?.isNone && s?.isNone && e?.isNone
    · exact .inl ⟨400, "No data provided", by simp only [update_trip, hft]; rw [if_pos hall]⟩
    · by_cases hparse : (s? == some none) || (e? == some none)
      · refine .inl ⟨400, "Invalid date format. Use YYYY-MM-DD", ?_⟩
        simp only [update_trip, hft]
        rw [if_neg hall, if_pos hparse]
      · by_cases hguard : newDate t.end_date e? < newDate t.start_date s?
        · refine .inl ⟨400, "End date cannot be before start date", ?_⟩
          simp only [update_trip, hft]
          rw [if_neg hall, if_neg hparse, if_pos hguard]
        · refine .inr ⟨t, rfl, ?_⟩
          simp only [update_trip, hft]
          rw [if_neg hall, if_neg hparse, if_neg hguard]

/-- C6: partial-update semantics for both PUT handlers.  On any error result
the persisted store is exactly the old store (no partial write survives a
failed validation), and on a success result exactly the addressed row is
replaced, each field taking the provided value and every absent field keeping
its previous value; all other rows and the other table are untouched. -/
theorem partial_update_atomic (db : DB) (uid lid tid : Nat)
    (bodyL : LocItemBody) (bodyT : TripUpdateBody) (hwf : WF db) :
    (∀ c m, (update_location db uid lid bodyL).1 = .err c m →
       (update_location db uid lid bodyL).2 = db) ∧
    (∀ c v, (update_location db uid lid bodyL).1 = .ok c v →
       (update_location db uid lid bodyL).2.trips = db.trips ∧
       (update_location db uid lid bodyL).2.locations
         = db.locations.map (fun x => if x.id = lid then
             { x with name := bodyL.name.getD x.name,
                      latitude := newCoord x.latitude bodyL.latitude,
                      longitude := newCoord x.longitude bodyL.longitude } else x)) ∧
    (∀ c m, (update_trip db uid tid bodyT).1 = .err c m →
       (update_trip db uid tid bodyT).2 = db) ∧
    (∀ c v, (update_trip db uid tid bodyT).1 = .ok c v →
       (update_trip db uid tid bodyT).2.locations = db.locations ∧
       (update_trip db uid tid bodyT).2.trips
         = db.trips.map (fun x => if x.id = tid then
             { x with destination := bodyT.destination.getD x.destination,
                      start_date := newDate x.start_date bodyT.start_date,
                      end_date := newDate x.end_date bodyT.end_date } else x)) := by
  refine ⟨?_, ?_, ?_, ?_⟩
  · intro c m h
    rcases update_location_result db uid lid bodyL with ⟨c', m', he⟩ | ⟨l, hfl, he⟩
    · rw [he]
    · rw [he] at h
      exact absurd h (by simp)
  · intro c v h
    rcases update_location_result db uid lid bodyL with ⟨c', m', he⟩ | ⟨l, hfl, he⟩
    · rw [he] at h
      exact absurd h (by simp)
    · obtain ⟨hlm, hlid⟩ := find_owned_location_spec db uid lid l hfl
      rw [he]
      subst hlid
      exact ⟨rfl, map_replace_eq Location.id db.locations hwf.2.1 l hlm
        (fun x => { x with name := bodyL.name.getD x.name,
                           latitude := newCoord x.latitude bodyL.latitude,
                           longitude := newCoord x.longitude bodyL.longitude })⟩
  · intro c m h
    rcases update_trip_result db uid tid bodyT with ⟨c', m', he⟩ | ⟨t, hft, he⟩
    · rw [he]
    · rw [he] at h
      exact absurd h (by simp)
  · intro c v h
    rcases update_trip_result db uid tid bodyT with ⟨c', m', he⟩ | ⟨t, hft, he⟩
    · rw [he] at h
      exact absurd h (by simp)
    · obtain ⟨htm, htid, -⟩ := find_trip_spec db uid tid t hft
      rw [he]
      subst htid
      exact ⟨rfl, map_replace_eq Trip.id db.trips hwf.1 t htm
        (fun x => { x with destination := bodyT.destination.getD x.destination,
                           start_date := newDate x.start_date bodyT.start_date,
                           end_date := newDate x.end_date bodyT.end_date })⟩

/-- Closed witness for C6: on a store with one trip and one location, a
location update with an invalid longitude leaves the store unchanged, and a
trip update providing only `end_date` changes only that field. -/
theorem partial_update_atomic_witness :
    WF (DB.mk [⟨1, "Kyoto", 0, 9, 1⟩] [⟨1, "A", 35, 135.7, 1⟩] 2 2) ∧
    (∀ c m, (update_location (DB.mk [⟨1, "Kyoto", 0, 9, 1⟩] [⟨1, "A", 35, 135.7, 1⟩] 2 2)
        1 1 ⟨some "B", none, some (some 200)⟩).1 = .err c m →
      (update_location (DB.mk [⟨1, "Kyoto", 0, 9, 1⟩] [⟨1, "A", 35, 135.7, 1⟩] 2 2)
        1 1 ⟨some "B", none, some (some 200)⟩).2
        = DB.mk [⟨1, "Kyoto", 0, 9, 1⟩] [⟨1, "A", 35, 135.7, 1⟩] 2 2) ∧
    (∀ c v, (update_trip (DB.mk [⟨1, "Kyoto", 0, 9, 1⟩] [⟨1, "A", 35, 135.7, 1⟩] 2 2)
        1 1 ⟨none, none, some (some 5)⟩).1 = .ok c v →
      (update_trip (DB.mk [⟨1, "Kyoto", 0, 9, 1⟩] [⟨1, "A", 35, 135.7, 1⟩] 2 2)
        1 1 ⟨none, none, some (some 5)⟩).2.locations
        = (DB.mk [⟨1, "Kyoto", 0, 9, 1⟩] [⟨1, "A", 35, 135.7, 1⟩] 2 2).locations ∧
      (update_trip (DB.mk [⟨1, "Kyoto", 0, 9, 1⟩] [⟨1, "A", 35, 135.7, 1⟩] 2 2)
        1 1 ⟨none, none, some (some 5)⟩).2.trips
        = (DB.mk [⟨1, "Kyoto", 0, 9, 1⟩] [⟨1, "A", 35, 135.7, 1⟩] 2 2).trips.map
            (fun x => if x.id = 1 then
              { x with destination := (none : Option String).getD x.destination,
                       start_date := newDate x.start_date none,
                       end_date := newDate x.end_date (some (some 5)) } else x)) :=
  ⟨by decide,
   (partial_update_atomic (DB.mk [⟨1, "Kyoto", 0, 9, 1⟩] [⟨1, "A", 35, 135.7, 1⟩] 2 2)
     1 1 1 ⟨some "B", none, some (some 200)⟩ ⟨none, none, some (some 5)⟩ (by decide)).1,
   (partial_update_atomic (DB.mk [⟨1, "Kyoto", 0, 9, 1⟩] [⟨1, "A", 35, 135.7, 1⟩] 2 2)
     1 1 1 ⟨some "B", none, some (some 200)⟩ ⟨none, none, some (some 5)⟩ (by decide)).2.2.2⟩

/-! ### C4 — bulk insert skips invalid items -/

theorem bulk_insert_spec (tid : Nat) (items : List LocItemBody) :
    ∀ nid : Nat,
      (bulk_insert tid items nid).map
          (fun l => ((some l.name : Option String), some (some l.latitude),
                     some (some l.longitude)))
        = (items.filter validItem).map (fun it => (it.name, it.latitude, it.longitude)) ∧
      (∀ l ∈ bulk_insert tid items nid, l.trip_id = tid) := by
  induction items with
  | nil => intro nid; simp [bulk_insert]
  | cons it rest ih =>
    intro nid
    obtain ⟨n?, la?, lo?⟩ := it
    rcases n? with - | nm
    · simpa [bulk_insert, validItem] using ih nid
    · rcases la? with - | la
      · simpa [bulk_insert, validItem] using ih nid
      · rcases la with - | lav
        · simpa [bulk_insert, validItem] using ih nid
        · rcases lo? with - | lo
          · simpa [bulk_insert, validItem] using ih nid
          · rcases lo with - | lov
            · simpa [bulk_insert, validItem] using ih nid
            · by_cases hv : validCoords lav lov
              · refine ⟨?_, ?_⟩
                · simpa [bulk_insert, validItem, hv] using (ih (nid + 1)).1
                · intro l hl
                  simp only [bulk_insert] at hl
                  rw [if_pos hv] at hl
                  rcases List.mem_cons.mp hl with rfl | hl
                  · rfl
                  · exact (ih (nid + 1)).2 l hl
              · simpa [bulk_insert, validItem, hv] using ih nid

theorem bulk_insert_length (tid : Nat) (items : List LocItemBody) (nid : Nat) :
    (bulk_insert tid items nid).length = (items.filter validItem).length := by
  have h := congrArg List.length (bulk_insert_spec tid items nid).1
  simpa using h

/-- C4: after the single ownership check, each bulk item is validated
independently; the committed rows are exactly the items that survive
validation (same names and coordinates, in order, all attached to the
addressed trip), the reported count is their number, and nothing else
changes.  When no item survives — including the empty-list case — the call
fails with a 400 and the store is untouched. -/
theorem bulk_create_partial_validation (db : DB) (uid tid : Nat)
    (items : List LocItemBody) (t : Trip) (ht : find_trip db uid tid = some t) :
    (items.filter validItem = [] →
       ∃ m, bulk_add_locations db uid tid items = (.err 400 m, db)) ∧
    (items.filter validItem ≠ [] →
       ∃ body : BulkOk,
         (bulk_add_locations db uid tid items).1 = .ok 201 body ∧
         body.count = (items.filter validItem).length ∧
         (bulk_add_locations db uid tid items).2.trips = db.trips ∧
         (bulk_add_locations db uid tid items).2.locations
           = db.locations ++ bulk_insert tid items db.nextLocId ∧
         (bulk_insert tid items db.nextLocId).map
             (fun l => ((some l.name : Option String), some (some l.latitude),
                        some (some l.longitude)))
           = (items.filter validItem).map (fun it => (it.name, it.latitude, it.longitude)) ∧
         (∀ l ∈ bulk_insert tid items db.nextLocId, l.trip_id = tid)) := by
  constructor
  · intro hempty
    have hadded : bulk_insert tid items db.nextLocId = [] := by
      have := bulk_insert_length tid items db.nextLocId
      rw [hempty] at this
      exact List.eq_nil_of_length_eq_zero (by simpa using this)
    by_cases hi : items = []
    · exact ⟨"Invalid data format. Expected list of locations",
        by simp [bulk_add_locations, ht, hi]⟩
    · exact ⟨"No valid locations provided",
        by simp [bulk_add_locations, ht, List.isEmpty_iff, hi, hadded]⟩
  · intro hne
    have hitems : items ≠ [] := by
      intro h
      rw [h] at hne
      exact hne rfl
    have haddedne : bulk_insert tid items db.nextLocId ≠ [] := by
      intro h
      apply hne
      have := bulk_insert_length tid items db.nextLocId
      rw [h] at this
      exact List.eq_nil_of_length_eq_zero (by simpa using this.symm)
    refine ⟨⟨(bulk_insert tid items db.nextLocId).length,
      (bulk_insert tid items db.nextLocId).map
        (fun l => ⟨l.id, l.name, l.latitude, l.longitude⟩)⟩, ?_, ?_, ?_, ?_, ?_, ?_⟩
    · simp [bulk_add_locations, ht, List.isEmpty_iff, hitems, haddedne]
    · simpa using bulk_insert_length tid items db.nextLocId
    · simp [bulk_add_locations, ht, List.isEmpty_iff, hitems, haddedne]
    · simp [bulk_add_locations, ht, List.isEmpty_iff, hitems, haddedne]
    · exact (bulk_insert_spec tid items db.nextLocId).1
    · exact (bulk_insert_spec tid items db.nextLocId).2

/-- Closed witness for C4: the spec's example — 2 valid and 3 invalid items
(missing name, latitude 200, unparsable latitude) — reports count 2. -/
theorem bulk_create_partial_validation_witness :
    find_trip (DB.mk [⟨1, "Kyoto", 0, 9, 1⟩] [] 2 1) 1 1 = some ⟨1, "Kyoto", 0, 9, 1⟩ ∧
    ([⟨some "a", some (some 10), some (some 20)⟩,
      ⟨none, some (some 1), some (some 2)⟩,
      ⟨some "b", some (some 200), some (some 0)⟩,
      ⟨some "c", some none, some (some 0)⟩,
      ⟨some "d", some (some 5), some (some 6)⟩] : List LocItemBody).filter validItem ≠ [] ∧
    (∃ body : BulkOk,
      (bulk_add_locations (DB.mk [⟨1, "Kyoto", 0, 9, 1⟩] [] 2 1) 1 1
        [⟨some "a", some (some 10), some (some 20)⟩,
         ⟨none, some (some 1), some (some 2)⟩,
         ⟨some "b", some (some 200), some (some 0)⟩,
         ⟨some "c", some none, some (some 0)⟩,
         ⟨some "d", some (some 5), some (some 6)⟩]).1 = .ok 201 body ∧
      body.count = (([⟨some "a", some (some 10), some (some 20)⟩,
        ⟨none, some (some 1), some (some 2)⟩,
        ⟨some "b", some (some 200), some (some 0)⟩,
        ⟨some "c", some none, some (some 0)⟩,
        ⟨some "d", some (some 5), some (some 6)⟩] : List LocItemBody).filter validItem).length) :=
  ⟨by decide, by decide,
   match (bulk_create_partial_validation (DB.mk [⟨1, "Kyoto", 0, 9, 1⟩] [] 2 1) 1 1
      [⟨some "a", some (some 10), some (some 20)⟩,
       ⟨none, some (some 1), some (some 2)⟩,
       ⟨some "b", some (some 200), some (some 0)⟩,
       ⟨some "c", some none, some (some 0)⟩,
       ⟨some "d", some (some 5), some (some 6)⟩] ⟨1, "Kyoto", 0, 9, 1⟩ (by decide)).2
      (by decide) with
   | ⟨body, h1, h2, _, _, _, _⟩ => ⟨body, h1, h2⟩⟩

/-! ### C1 — nearby search: filter, order, stability -/

theorem filterMap_ite {β γ : Type} (p : β → Prop) [DecidablePred p] (f : β → γ)
    (L : List β) :
    (L.filterMap fun x => if p x then some (f x) else none)
      = (L.filter fun x => decide (p x)).map f := by
  induction L with
  | nil => rfl
  | cons x xs ih => by_cases h : p x <;> simp [h, ih]

/-- Python's stable sort keeps the elements of each key class in their
original order: filtering any fixed key out of the sorted list gives the same
list as filtering it out of the input. -/
theorem mergeSort_filter_key {β κ : Type} [LinearOrder κ] (key : β → κ) (L : List β)
    (q : κ) :
    ((L.mergeSort (fun a b => decide (key a ≤ key b))).filter
        (fun e => decide (key e = q)))
      = L.filter (fun e => decide (key e = q)) := by
  have htrans : ∀ a b c : β, (decide (key a ≤ key b)) = true →
      (decide (key b ≤ key c)) = true → (decide (key a ≤ key c)) = true := by
    intro a b c h1 h2
    simp only [decide_eq_true_eq] at h1 h2 ⊢
    exact le_trans h1 h2
  have htotal : ∀ a b : β, ((decide (key a ≤ key b)) || (decide (key b ≤ key a))) = true := by
    intro a b
    simp only [Bool.or_eq_true, decide_eq_true_eq]
    exact le_total (key a) (key b)
  have hsub : (L.filter (fun e => decide (key e = q))).Sublist
      (L.mergeSort (fun a b => decide (key a ≤ key b))) := by
    apply List.sublist_mergeSort htrans htotal ?_ (List.filter_sublist L)
    apply List.pairwise_of_forall_mem_list
    intro a ha b hb
    have hqa : key a = q := by simpa using (List.mem_filter.mp ha).2
    have hqb : key b = q := by simpa using (List.mem_filter.mp hb).2
    simp [hqa, hqb]
  have h1 : (L.filter (fun e => decide (key e = q))).Sublist
      ((L.mergeSort (fun a b => decide (key a ≤ key b))).filter
        (fun e => decide (key e = q))) := by
    have h2 := hsub.filter (fun e => decide (key e = q))
    rwa [List.filter_eq_self.mpr (fun a ha => (List.mem_filter.mp ha).2)] at h2
  have hperm := (List.mergeSort_perm L
      (fun a b => decide (key a ≤ key b))).filter (fun e => decide (key e = q))
  exact (h1.eq_of_length hperm.length_eq.symm).symm

/-- C1: for any distance engine, any store, any authenticated user and any
valid center and positive radius, the nearby query succeeds (also when
nothing qualifies — an empty list, not an error) and its entry list is a
permutation of the entries built (with the 2-decimal-rounded distance) from
exactly the locations transitively owned by the user whose computed distance
is at most the radius; the list is non-decreasing in the reported distance
and, restricted to any fixed distance value, keeps the original retrieval
order (stable ties). -/
theorem nearby_query_correct {α : Type} [LinearOrderedField α] [FloorRing α]
    (dist : ℚ → ℚ → ℚ → ℚ → α) (db : DB) (uid : Nat) (lat lon radius : ℚ)
    (hlat : -90 ≤ lat ∧ lat ≤ 90) (hlon : -180 ≤ lon ∧ lon ≤ 180) (hr : 0 < radius) :
    ∃ body : NearbyOk α,
      get_nearby_locations dist db uid ⟨some (some lat), some (some lon), some (some radius)⟩
        = .ok 200 body ∧
      body.locations.Perm (((owned_locations db uid).filter
          (fun l => decide (dist lat lon l.latitude l.longitude ≤ (radius : α)))).map
          (nearbyEntry dist lat lon)) ∧
      body.locations.Pairwise (fun e1 e2 => e1.distance ≤ e2.distance) ∧
      (∀ q : α, body.locations.filter (fun e => decide (e.distance = q))
          = (((owned_locations db uid).filter
              (fun l => decide (dist lat lon l.latitude l.longitude ≤ (radius : α)))).map
              (nearbyEntry dist lat lon)).filter (fun e => decide (e.distance = q))) ∧
      ((owned_locations db uid).filter
          (fun l => decide (dist lat lon l.latitude l.longitude ≤ (radius : α))) = [] →
        body.locations = []) ∧
      body.count = body.locations.length ∧
      body.center_latitude = lat ∧ body.center_longitude = lon ∧ body.radius = radius := by
  have hcond : ¬(¬ validCoords lat lon ∨ radius ≤ 0) := by
    push_neg
    exact ⟨⟨hlat.1, hlat.2, hlon.1, hlon.2⟩, hr⟩
  have hentries : ((owned_locations db uid).filterMap (fun l =>
      if dist lat lon l.latitude l.longitude ≤ (radius : α) then
        some (nearbyEntry dist lat lon l)
      else none))
        = ((owned_locations db uid).filter
            (fun l => decide (dist lat lon l.latitude l.longitude ≤ (radius : α)))).map
            (nearbyEntry dist lat lon) :=
    filterMap_ite _ _ _
  have hres : get_nearby_locations dist db uid
      ⟨some (some lat), some (some lon), some (some radius)⟩
        = .ok 200 ⟨lat, lon, radius,
            (((owned_locations db uid).filter
              (fun l => decide (dist lat lon l.latitude l.longitude ≤ (radius : α)))).map
              (nearbyEntry dist lat lon)).mergeSort
                (fun a b => decide (a.distance ≤ b.distance)),
            ((((owned_locations db uid).filter
              (fun l => decide (dist lat lon l.latitude l.longitude ≤ (radius : α)))).map
              (nearbyEntry dist lat lon)).mergeSort
                (fun a b => decide (a.distance ≤ b.distance))).length⟩ := by
    simp only [get_nearby_locations, Option.getD_some]
    rw [if_neg hcond, hentries]
  refine ⟨_, hres, ?_, ?_, ?_, ?_, rfl, rfl, rfl, rfl⟩
  · exact List.mergeSort_perm _ _
  · have htrans : ∀ a b c : NearbyEntry α, (decide (a.distance ≤ b.distance)) = true →
        (decide (b.distance ≤ c.distance)) = true →
        (decide (a.distance ≤ c.distance)) = true := by
      intro a b c h1 h2
      simp only [decide_eq_true_eq] at h1 h2 ⊢
      exact le_trans h1 h2
    have htotal : ∀ a b : NearbyEntry α,
        ((decide (a.distance ≤ b.distance)) || (decide (b.distance ≤ a.distance))) = true := by
      intro a b
      simp only [Bool.or_eq_true, decide_eq_true_eq]
      exact le_total a.distance b.distance
    exact (List.sorted_mergeSort htrans htotal _).imp of_decide_eq_true
  · intro q
    exact mergeSort_filter_key (fun e : NearbyEntry α => e.distance) _ q
  · intro hnil
    rw [hnil]
    simp

/-- Closed witness for C1: a taxicab distance engine over a two-location
store (one location within the radius, one outside) — the query succeeds and
returns exactly the qualifying entries. -/
theorem nearby_query_correct_witness :
    ((-90 : ℚ) ≤ 35 ∧ (35 : ℚ) ≤ 90) ∧ ((-180 : ℚ) ≤ 135 ∧ (135 : ℚ) ≤ 180) ∧
    (0 : ℚ) < 1 ∧
    ∃ body : NearbyOk ℚ,
      get_nearby_locations (fun a b c d => |a - c| + |b - d|)
        (DB.mk [⟨1, "Kyoto", 0, 9, 1⟩] [⟨1, "A", 35, 135.2, 1⟩, ⟨2, "B", 80, 10, 1⟩] 2 3) 1
        ⟨some (some 35), some (some 135), some (some 1)⟩ = .ok 200 body ∧
      body.locations.Perm (((owned_locations
          (DB.mk [⟨1, "Kyoto", 0, 9, 1⟩] [⟨1, "A", 35, 135.2, 1⟩, ⟨2, "B", 80, 10, 1⟩] 2 3)
          1).filter
          (fun l => decide (|(35 : ℚ) - l.latitude| + |(135 : ℚ) - l.longitude| ≤
            ((1 : ℚ) : ℚ)))).map
          (nearbyEntry (fun a b c d => |a - c| + |b - d|) 35 135)) :=
  ⟨by decide, by decide, by decide,
   match nearby_query_correct (fun a b c d : ℚ => |a - c| + |b - d|)
      (DB.mk [⟨1, "Kyoto", 0, 9, 1⟩] [⟨1, "A", 35, 135.2, 1⟩, ⟨2, "B", 80, 10, 1⟩] 2 3) 1
      35 135 1 (by decide) (by decide) (by decide) with
   | ⟨b, h1, h2, _, _, _, _, _, _, _⟩ => ⟨b, h1, h2⟩⟩

/-! ### C8 — the distance engine is zero on the diagonal and symmetric -/

/-- C8: for valid coordinate pairs, the haversine distance of a point to
itself is exactly zero, and the distance is symmetric in its two points. -/
theorem haversine_zero_symm (lat1 lon1 lat2 lon2 : ℝ)
    (h1 : -90 ≤ lat1 ∧ lat1 ≤ 90) (h2 : -180 ≤ lon1 ∧ lon1 ≤ 180)
    (h3 : -90 ≤ lat2 ∧ lat2 ≤ 90) (h4 : -180 ≤ lon2 ∧ lon2 ≤ 180) :
    haversine_distance lat1 lon1 lat1 lon1 = 0 ∧
    haversine_distance lat1 lon1 lat2 lon2 = haversine_distance lat2 lon2 lat1 lon1 := by
  constructor
  · simp [haversine_distance]
  · have hsin : ∀ x y : ℝ, Real.sin ((x - y) / 2) ^ 2 = Real.sin ((y - x) / 2) ^ 2 := by
      intro x y
      rw [show (x - y) / 2 = -((y - x) / 2) by ring, Real.sin_neg, neg_sq]
    simp only [haversine_distance]
    rw [hsin (lat2 * Real.pi / 180) (lat1 * Real.pi / 180),
        hsin (lon2 * Real.pi / 180) (lon1 * Real.pi / 180),
        mul_comm (Real.cos (lat1 * Real.pi / 180)) (Real.cos (lat2 * Real.pi / 180))]

/-- Closed witness for C8 at the points (10, 20) and (30, 40). -/
theorem haversine_zero_symm_witness :
    ((-90 : ℝ) ≤ 10 ∧ (10 : ℝ) ≤ 90) ∧ ((-180 : ℝ) ≤ 20 ∧ (20 : ℝ) ≤ 180) ∧
    ((-90 : ℝ) ≤ 30 ∧ (30 : ℝ) ≤ 90) ∧ ((-180 : ℝ) ≤ 40 ∧ (40 : ℝ) ≤ 180) ∧
    haversine_distance 10 20 10 20 = 0 ∧
    haversine_distance 10 20 30 40 = haversine_distance 30 40 10 20 :=
  ⟨by norm_num, by norm_num, by norm_num, by norm_num,
   (haversine_zero_symm 10 20 30 40 (by norm_num) (by norm_num)
     (by norm_num) (by norm_num)).1,
   (haversine_zero_symm 10 20 30 40 (by norm_num) (by norm_num)
     (by norm_num) (by norm_num)).2⟩

/-! ### C9 — the scenario distance: interval bounds for the haversine value -/

theorem cos_eq_one_sub_two_sin_half_sq (x : ℝ) :
    Real.cos x = 1 - 2 * Real.sin (x / 2) ^ 2 := by
  have h := Real.sin_sq_eq_half_sub (x / 2)
  rw [show 2 * (x / 2) = x by ring] at h
  linarith

/-- The haversine expression of the scenario, with the radian arguments put
in closed form (`dlat/2 = dlon/2 = -pi/36000`). -/
theorem haversine_scenario_expand :
    haversine_distance 35.01 135.71 35 135.7
      = 2 * Real.arcsin (Real.sqrt
          (Real.sin (Real.pi / 36000) ^ 2 +
           Real.cos (3501 * Real.pi / 18000) * Real.cos (35 * Real.pi / 180) *
             Real.sin (Real.pi / 36000) ^ 2)) * 6371 := by
  simp only [haversine_distance]
  have e1 : ((35 : ℝ) * Real.pi / 180 - 35.01 * Real.pi / 180) / 2 = -(Real.pi / 36000) := by
    have h : (35.01 : ℝ) = 3501 / 100 := by norm_num
    rw [h]; ring
  have e2 : ((135.7 : ℝ) * Real.pi / 180 - 135.71 * Real.pi / 180) / 2
      = -(Real.pi / 36000) := by
    have h7 : (135.7 : ℝ) = 1357 / 10 := by norm_num
    have h71 : (135.71 : ℝ) = 13571 / 100 := by norm_num
    rw [h7, h71]; ring
  have e3 : (35.01 : ℝ) * Real.pi / 180 = 3501 * Real.pi / 18000 := by
    have h : (35.01 : ℝ) = 3501 / 100 := by norm_num
    rw [h]; ring
  rw [e1, e2, e3, Real.sin_neg, neg_sq]

theorem sin_pi36000_bounds :
    (0.00008726 : ℝ) ≤ Real.sin (Real.pi / 36000) ∧
    Real.sin (Real.pi / 36000) ≤ 0.00008727 := by
  have hl : (3.141592 : ℝ) / 36000 < Real.pi / 36000 := by
    have := Real.pi_gt_d6; linarith
  have hh : Real.pi / 36000 < (3.141593 : ℝ) / 36000 := by
    have := Real.pi_lt_d6; linarith
  have hpos : (0 : ℝ) < Real.pi / 36000 := by positivity
  have hle1 : Real.pi / 36000 ≤ 1 := by linarith
  constructor
  · have hs := Real.sin_gt_sub_cube hpos hle1
    have h3 : (Real.pi / 36000) ^ 3 ≤ (3.141593 / 36000 : ℝ) ^ 3 :=
      pow_le_pow_left₀ (le_of_lt hpos) (le_of_lt hh) 3
    have hnum : (3.141593 / 36000 : ℝ) ^ 3 ≤ 0.000000000001 := by norm_num
    linarith
  · have := Real.sin_lt hpos
    linarith

theorem sin_y1_bounds :
    (0.30031 : ℝ) ≤ Real.sin (3501 * Real.pi / 36000) ∧
    Real.sin (3501 * Real.pi / 36000) ≤ 0.30123 := by
  have hl : (0.3055198 : ℝ) ≤ 3501 * Real.pi / 36000 := by
    have := Real.pi_gt_d6; linarith
  have hh : 3501 * Real.pi / 36000 ≤ (0.30552 : ℝ) := by
    have := Real.pi_lt_d6; linarith
  have hpos : (0 : ℝ) ≤ 3501 * Real.pi / 36000 := by positivity
  have habs : |3501 * Real.pi / 36000| ≤ 1 := by
    rw [abs_of_nonneg hpos]; linarith
  have hb := abs_le.mp (Real.sin_bound habs)
  rw [abs_of_nonneg hpos] at hb
  have h3l : (0.0285145 : ℝ) ≤ (3501 * Real.pi / 36000) ^ 3 :=
    le_trans (by norm_num) (pow_le_pow_left₀ (by norm_num) hl 3)
  have h3h : (3501 * Real.pi / 36000) ^ 3 ≤ (0.028519 : ℝ) :=
    le_trans (pow_le_pow_left₀ hpos hh 3) (by norm_num)
  have h4h : (3501 * Real.pi / 36000) ^ 4 ≤ (0.0087129 : ℝ) :=
    le_trans (pow_le_pow_left₀ hpos hh 4) (by norm_num)
  constructor
  · linarith [hb.1]
  · linarith [hb.2]

theorem sin_y2_bounds :
    (0.30022 : ℝ) ≤ Real.sin (35 * Real.pi / 360) ∧
    Real.sin (35 * Real.pi / 360) ≤ 0.30114 := by
  have hl : (0.3054325 : ℝ) ≤ 35 * Real.pi / 360 := by
    have := Real.pi_gt_d6; linarith
  have hh : 35 * Real.pi / 360 ≤ (0.3054327 : ℝ) := by
    have := Real.pi_lt_d6; linarith
  have hpos : (0 : ℝ) ≤ 35 * Real.pi / 360 := by positivity
  have habs : |35 * Real.pi / 360| ≤ 1 := by
    rw [abs_of_nonneg hpos]; linarith
  have hb := abs_le.mp (Real.sin_bound habs)
  rw [abs_of_nonneg hpos] at hb
  have h3l : (0.0284934 : ℝ) ≤ (35 * Real.pi / 360) ^ 3 :=
    le_trans (by norm_num) (pow_le_pow_left₀ (by norm_num) hl 3)
  have h3h : (35 * Real.pi / 360) ^ 3 ≤ (0.0284936 : ℝ) :=
    le_trans (pow_le_pow_left₀ hpos hh 3) (by norm_num)
  have h4h : (35 * Real.pi / 360) ^ 4 ≤ (0.0087029 : ℝ) :=
    le_trans (pow_le_pow_left₀ hpos hh 4) (by norm_num)
  constructor
  · linarith [hb.1]
  · linarith [hb.2]

theorem cos_lat1_bounds :
    (0.818520 : ℝ) ≤ Real.cos (3501 * Real.pi / 18000) ∧
    Real.cos (3501 * Real.pi / 18000) ≤ 0.819628 := by
  have hc := cos_eq_one_sub_two_sin_half_sq (3501 * Real.pi / 18000)
  rw [show (3501 * Real.pi / 18000) / 2 = 3501 * Real.pi / 36000 by ring] at hc
  obtain ⟨hs1, hs2⟩ := sin_y1_bounds
  have hsq_hi : Real.sin (3501 * Real.pi / 36000) ^ 2 ≤ (0.090740 : ℝ) :=
    le_trans (pow_le_pow_left₀ (by linarith) hs2 2) (by norm_num)
  have hsq_lo : (0.090186 : ℝ) ≤ Real.sin (3501 * Real.pi / 36000) ^ 2 :=
    le_trans (by norm_num) (pow_le_pow_left₀ (by norm_num) hs1 2)
  constructor <;> rw [hc] <;> linarith

theorem cos_lat2_bounds :
    (0.818626 : ℝ) ≤ Real.cos (35 * Real.pi / 180) ∧
    Real.cos (35 * Real.pi / 180) ≤ 0.819736 := by
  have hc := cos_eq_one_sub_two_sin_half_sq (35 * Real.pi / 180)
  rw [show (35 * Real.pi / 180) / 2 = 35 * Real.pi / 360 by ring] at hc
  obtain ⟨hs1, hs2⟩ := sin_y2_bounds
  have hsq_hi : Real.sin (35 * Real.pi / 360) ^ 2 ≤ (0.090687 : ℝ) :=
    le_trans (pow_le_pow_left₀ (by linarith) hs2 2) (by norm_num)
  have hsq_lo : (0.090132 : ℝ) ≤ Real.sin (35 * Real.pi / 360) ^ 2 :=
    le_trans (by norm_num) (pow_le_pow_left₀ (by norm_num) hs1 2)
  constructor <;> rw [hc] <;> linarith

/-- Two-sided interval for the haversine distance of the scenario: the value
is about 1.437 km. -/
theorem haversine_scenario_bounds :
    (1.4366 : ℝ) ≤ haversine_distance 35.01 135.71 35 135.7 ∧
    haversine_distance 35.01 135.71 35 135.7 ≤ 1.4383 := by
  rw [haversine_scenario_expand]
  obtain ⟨hs1, hs2⟩ := sin_pi36000_bounds
  obtain ⟨hc1l, hc1h⟩ := cos_lat1_bounds
  obtain ⟨hc2l, hc2h⟩ := cos_lat2_bounds
  have hs0 : (0 : ℝ) ≤ Real.sin (Real.pi / 36000) := by linarith
  have ht_lo : (0.00008726 : ℝ) ^ 2 ≤ Real.sin (Real.pi / 36000) ^ 2 :=
    pow_le_pow_left₀ (by norm_num) hs1 2
  have ht_hi : Real.sin (Real.pi / 36000) ^ 2 ≤ (0.00008727 : ℝ) ^ 2 :=
    pow_le_pow_left₀ hs0 hs2 2
  have hprod_lo : (0.670054 : ℝ) ≤
      Real.cos (3501 * Real.pi / 18000) * Real.cos (35 * Real.pi / 180) := by
    have h := mul_le_mul hc1l hc2l (by norm_num) (by linarith)
    linarith [h]
  have hprod_hi : Real.cos (3501 * Real.pi / 18000) * Real.cos (35 * Real.pi / 180)
      ≤ (0.671902 : ℝ) := by
    have h := mul_le_mul hc1h hc2h (by linarith) (by norm_num)
    linarith [h]
  have hmul_lo : (0.670054 : ℝ) * ((0.00008726 : ℝ) ^ 2) ≤
      Real.cos (3501 * Real.pi / 18000) * Real.cos (35 * Real.pi / 180) *
        Real.sin (Real.pi / 36000) ^ 2 :=
    mul_le_mul hprod_lo ht_lo (by norm_num) (by linarith)
  have hmul_hi : Real.cos (3501 * Real.pi / 18000) * Real.cos (35 * Real.pi / 180) *
      Real.sin (Real.pi / 36000) ^ 2 ≤ (0.671902 : ℝ) * ((0.00008727 : ℝ) ^ 2) :=
    mul_le_mul hprod_hi ht_hi (by positivity) (by norm_num)
  have ha_lo : (0.000000012715 : ℝ) ≤
      Real.sin (Real.pi / 36000) ^ 2 +
        Real.cos (3501 * Real.pi / 18000) * Real.cos (35 * Real.pi / 180) *
          Real.sin (Real.pi / 36000) ^ 2 := by
    linarith
  have ha_hi : Real.sin (Real.pi / 36000) ^ 2 +
      Real.cos (3501 * Real.pi / 18000) * Real.cos (35 * Real.pi / 180) *
        Real.sin (Real.pi / 36000) ^ 2 ≤ (0.000000012736 : ℝ) := by
    linarith
  have hw_lo : (0.00011275 : ℝ) ≤ Real.sqrt
      (Real.sin (Real.pi / 36000) ^ 2 +
        Real.cos (3501 * Real.pi / 18000) * Real.cos (35 * Real.pi / 180) *
          Real.sin (Real.pi / 36000) ^ 2) := by
    rw [show (0.00011275 : ℝ) = Real.sqrt ((0.00011275 : ℝ) ^ 2) from
      (Real.sqrt_sq (by norm_num)).symm]
    apply Real.sqrt_le_sqrt
    have : ((0.00011275 : ℝ)) ^ 2 ≤ 0.000000012715 := by norm_num
    linarith
  have hw_hi : Real.sqrt
      (Real.sin (Real.pi / 36000) ^ 2 +
        Real.cos (3501 * Real.pi / 18000) * Real.cos (35 * Real.pi / 180) *
          Real.sin (Real.pi / 36000) ^ 2) ≤ (0.000112877 : ℝ) := by
    rw [show (0.000112877 : ℝ) = Real.sqrt ((0.000112877 : ℝ) ^ 2) from
      (Real.sqrt_sq (by norm_num)).symm]
    apply Real.sqrt_le_sqrt
    have : (0.000000012736 : ℝ) ≤ ((0.000112877 : ℝ)) ^ 2 := by norm_num
    linarith
  have hpi2 : (1.57 : ℝ) ≤ Real.pi / 2 := by
    have := Real.pi_gt_d6; linarith
  have harc_lo : (0.00011275 : ℝ) ≤ Real.arcsin (Real.sqrt
      (Real.sin (Real.pi / 36000) ^ 2 +
        Real.cos (3501 * Real.pi / 18000) * Real.cos (35 * Real.pi / 180) *
          Real.sin (Real.pi / 36000) ^ 2)) := by
    have hsinlt := Real.sin_lt (show (0 : ℝ) < 0.00011275 by norm_num)
    have hmono := Real.monotone_arcsin (le_trans (le_of_lt hsinlt) hw_lo)
    rwa [Real.arcsin_sin (by linarith) (by linarith)] at hmono
  have harc_hi : Real.arcsin (Real.sqrt
      (Real.sin (Real.pi / 36000) ^ 2 +
        Real.cos (3501 * Real.pi / 18000) * Real.cos (35 * Real.pi / 180) *
          Real.sin (Real.pi / 36000) ^ 2)) ≤ (0.000112878 : ℝ) := by
    have hcube := Real.sin_gt_sub_cube (show (0 : ℝ) < 0.000112878 by norm_num)
      (by norm_num)
    have hpow : ((0.000112878 : ℝ)) ^ 3 ≤ 0.0000000000016 := by norm_num
    have hmessage : Real.sqrt
        (Real.sin (Real.pi / 36000) ^ 2 +
          Real.cos (3501 * Real.pi / 18000) * Real.cos (35 * Real.pi / 180) *
            Real.sin (Real.pi / 36000) ^ 2) ≤ Real.sin 0.000112878 := by
      linarith
    have hmono := Real.monotone_arcsin hmessage
    rwa [Real.arcsin_sin (by linarith) (by linarith)] at hmono
  constructor
  · linarith
  · linarith

/-- The reported (2-decimal-rounded) distance of the scenario is exactly
1.44 km. -/
theorem haversine_scenario_round :
    roundTo2 (haversine_distance 35.01 135.71 35 135.7) = 1.44 := by
  obtain ⟨hlo, hhi⟩ := haversine_scenario_bounds
  have hfloor : round (haversine_distance 35.01 135.71 35 135.7 * 100) = (144 : ℤ) := by
    rw [round_eq]
    apply Int.floor_eq_iff.mpr
    constructor
    · push_cast
      linarith
    · push_cast
      linarith
  rw [roundTo2, hfloor]
  norm_num

/-- C9, counterexample: at the stored location (35.0, 135.7) and center
(35.01, 135.71), the reported 2-decimal distance is 1.44 km, which is not
within 0.1 of the claimed ≈ 1.3 km. -/
theorem nearby_scenario_cex :
    roundTo2 (haversine_distance 35.01 135.71 35 135.7) = 1.44 ∧
    ¬ |roundTo2 (haversine_distance 35.01 135.71 35 135.7) - 1.3| ≤ 0.1 := by
  refine ⟨haversine_scenario_round, ?_⟩
  rw [haversine_scenario_round]
  rw [abs_le]
  intro h
  have := h.2
  norm_num at this

/-- The store of the spec's scenario: one user (id 7) owning one trip with
the single location (35.0, 135.7). -/
def scenarioDB : DB :=
  ⟨[⟨1, "Kyoto", 0, 9, 7⟩], [⟨1, "Kyoto Station", 35, 135.7, 1⟩], 2, 2⟩

/-- C9, amended: with the real haversine engine, the nearby query at center
(35.01, 135.71) and radius 5 km includes the stored location (35.0, 135.7),
reporting the 2-decimal-rounded distance 1.44 km (not ≈ 1.3 km). -/
theorem nearby_scenario_amended :
    get_nearby_locations haversineQ scenarioDB 7
        ⟨some (some 35.01), some (some 135.71), some (some 5)⟩
      = .ok 200 ⟨35.01, 135.71, 5,
          [⟨1, "Kyoto Station", 35, 135.7, (1.44 : ℝ), 1⟩], 1⟩ := by
  have hcast : haversineQ 35.01 135.71 35 135.7
      = haversine_distance 35.01 135.71 35 135.7 := by
    rw [haversineQ]
    norm_num
  have hle : haversineQ (35.01 : ℚ) (135.71 : ℚ) (35 : ℚ) (135.7 : ℚ) ≤ (((5 : ℚ)) : ℝ) := by
    rw [hcast]
    have h := haversine_scenario_bounds.2
    push_cast
    linarith
  have hround : roundTo2 (haversineQ 35.01 135.71 35 135.7) = (1.44 : ℝ) := by
    rw [hcast, haversine_scenario_round]
  have hcond : ¬ (¬ validCoords (35.01 : ℚ) (135.71 : ℚ) ∨ (5 : ℚ) ≤ 0) := by
    push_neg
    constructor
    · simp only [validCoords]
      norm_num
    · norm_num
  simp only [get_nearby_locations, Option.getD_some]
  rw [if_neg hcond]
  have howned : owned_locations scenarioDB 7 = [⟨1, "Kyoto Station", 35, 135.7, 1⟩] := rfl
  rw [howned]
  simp only [List.filterMap_cons, List.filterMap_nil]
  rw [if_pos hle]
  rw [List.mergeSort_singleton]
  simp only [nearbyEntry]
  rw [hround]
  rfl

end SoulTrip
